import Mathlib

/-!
Verification of the Caris batch command-construction engine
(`caris/carisbatch/_carisbatch.py` and `_utils.py`), shallowly embedded.

Python dicts are modelled as insertion-ordered association lists
(`List (String × Value)`); Python runtime values that can appear in a
settings mapping are modelled by the inductive type `Value`; exceptions
are modelled by the `PyError` type together with explicit result pairs
that also carry the post-raise mutable state where the claims need it.
-/

namespace Caris

/-- A scalar Python value: `None`, `bool`, `int` or `str`. -/
inductive Scalar where
  | none
  | bool (b : Bool)
  | int (n : Int)
  | str (s : String)
deriving Repr, DecidableEq

/-- Python runtime values that can occur as settings values, selector values
or auxiliary file entries: a scalar, or a `list`/`tuple`/generator of
scalars collapsed to one ordered-sequence constructor (the engine registers
the same handler for all three and only ever iterates one level deep, so
the value universe is modelled as scalars and flat sequences of scalars). -/
inductive Value where
  | none
  | bool (b : Bool)
  | int (n : Int)
  | str (s : String)
  | list (l : List Scalar)
deriving Repr, DecidableEq

/-- A list element, viewed again as a value. -/
def Scalar.toValue : Scalar → Value
  | Scalar.none => Value.none
  | Scalar.bool b => Value.bool b
  | Scalar.int n => Value.int n
  | Scalar.str s => Value.str s

/-- Python `str(scalar)`. -/
def Scalar.pyStr : Scalar → String
  | Scalar.none => "None"
  | Scalar.bool true => "True"
  | Scalar.bool false => "False"
  | Scalar.int n => toString n
  | Scalar.str s => s

/-- Python `repr(scalar)`, used when a list is rendered by `str`. -/
def Scalar.pyRepr : Scalar → String
  | Scalar.str s => "\x27" ++ s ++ "\x27"
  | v => Scalar.pyStr v

/-- Python `str(value)`, as used by f-string interpolation in the engine. -/
def Value.pyStr : Value → String
  | Value.none => "None"
  | Value.bool true => "True"
  | Value.bool false => "False"
  | Value.int n => toString n
  | Value.str s => s
  | Value.list l => "[" ++ String.intercalate ", " (l.map Scalar.pyRepr) ++ "]"

/-- Python truthiness (`if value:`) for the values modelled here. -/
def Value.truthy : Value → Bool
  | Value.none => false
  | Value.bool b => b
  | Value.int n => n != 0
  | Value.str s => s != ""
  | Value.list l => !l.isEmpty

/-- `_utils.ensure_iterable`: strings and non-iterables are wrapped in a
one-element list, other iterables are returned as they are. -/
def ensureIterable : Value → List Value
  | Value.str s => [Value.str s]
  | Value.list l => l.map Scalar.toValue
  | v => [v]

/-- A Python dict with `String` keys, as an insertion-ordered association
list with pairwise distinct keys maintained by `dictInsert`. -/
abbrev Settings := List (String × Value)

/-- `d[k] = v`: update in place when the key exists (keeping its position),
otherwise append at the end. -/
def dictInsert (d : Settings) (k : String) (v : Value) : Settings :=
  if d.any (fun p => p.1 == k) then
    d.map (fun p => if p.1 == k then (k, v) else p)
  else
    d ++ [(k, v)]

/-- `d.get(k)`. -/
def dictFind (d : Settings) (k : String) : Option Value :=
  (d.find? (fun p => p.1 == k)).map (fun p => p.2)

/-- `d.get(k)` with default `None`. -/
def dictGetV (d : Settings) (k : String) : Value :=
  (dictFind d k).getD Value.none

/-- `d.get(k, 'unknown')`, used when formatting the invalid-setting error. -/
def dictGetUnknown (d : Settings) (k : String) : Value :=
  (dictFind d k).getD (Value.str "unknown")

/-- The key list of a dict, in insertion order. -/
def dictKeys (d : Settings) : List String :=
  d.map (fun p => p.1)

/-- Build a dict from a pair list, later occurrences of a key overwriting
earlier ones in place (Python dict-comprehension semantics). -/
def toDict (l : List (String × Value)) : Settings :=
  l.foldl (fun d p => dictInsert d p.1 p.2) []

/-- `{**a, **b}`. -/
def dictMerge (a b : Settings) : Settings :=
  b.foldl (fun d p => dictInsert d p.1 p.2) a

/-- Python `str.replace` with a one-character pattern and a one-character
replacement, the only form the engine uses. -/
def replaceChar (a b : Char) (s : String) : String :=
  String.mk (s.toList.map (fun c => if c = a then b else c))

/-- Python `str.upper` restricted to ASCII, which covers every key and
registry entry in the catalog. -/
def asciiUpperChar (c : Char) : Char :=
  if 97 ≤ c.toNat && c.toNat ≤ 122 then Char.ofNat (c.toNat - 32) else c

/-- Python `str.upper` on an ASCII string. -/
def asciiUpper (s : String) : String :=
  String.mk (s.toList.map asciiUpperChar)

/-- Python `str.endswith`. -/
def strEndsWith (s suf : String) : Bool :=
  suf.toList.isSuffixOf s.toList

/-- Python `str.lstrip` with the single character `_`: remove every leading
underscore. -/
def lstripUnderscore : List Char → List Char
  | [] => []
  | c :: rest => if c = '_' then lstripUnderscore rest else c :: rest

/-- Key normalisation in `config`:
`key.replace('-', '_').lstrip('_')`. -/
def normalizeKey (k : String) : String :=
  String.mk (lstripUnderscore ((replaceChar '-' '_' k).toList))

/-- The dict comprehension at the top of `config`, applied to the keyword
arguments. -/
def normalizeKwargs (raw : List (String × Value)) : Settings :=
  toDict (raw.map (fun p => (normalizeKey p.1, p.2)))

/-- Exceptions the engine can raise while configuring or building the
command line.  The first four are the `CarisBatchError` cases; the last
models the `AttributeError` Python raises when a method of `str` or `dict`
is invoked on an object that lacks it. -/
inductive PyError where
  | unsupportedOption (option : Value)
  | invalidSetting (key : String) (label : Value)
  | notConfigured
  | settingsNotConfigured
  | attributeError
deriving Repr, DecidableEq

/-- Which exceptions are `CarisBatchError`s (caught by the dead handler in
`run`). -/
def PyError.isCarisBatchError : PyError → Bool
  | PyError.attributeError => false
  | _ => true

/-- One operation class: its `_command`, `_option_key`, `_common_settings`
and `_option_registry` (discriminator value, already upper-case in the
source, mapped to the variant's `default_settings`). -/
structure OperationDescriptor where
  command : String
  optionKey : Option String
  commonSettings : Settings
  optionRegistry : List (String × Settings)

/-- `_option_registry.get(option.upper())`. -/
def registryFind (op : OperationDescriptor) (s : String) : Option Settings :=
  ((op.optionRegistry.find? (fun p => p.1 == asciiUpper s)).map (fun p => p.2))

/-- The second argument of the invalid-setting error message:
`self.settings.get(self._option_key, 'unknown')` (when `_option_key` is
`None`, `dict.get(None, ...)` yields the default, the keys being strings). -/
def invalidLabel (optionKey : Option String) (s : Settings) : Value :=
  match optionKey with
  | Option.none => Value.str "unknown"
  | Option.some ok => dictGetUnknown s ok

/-- `CarisBatchCommand._update_settings`: apply the pairs in order,
assigning keys already present and raising the invalid-setting error at the
first key that is not.  The returned settings are the state of the mutable
mapping when the loop stops, also on error (partial updates are kept). -/
def updateLoop (optionKey : Option String) (s : Settings) :
    List (String × Value) → Option PyError × Settings
  | [] => (Option.none, s)
  | (k, v) :: rest =>
    if s.any (fun p => p.1 == k) then
      updateLoop optionKey (dictInsert s k v) rest
    else
      (Option.some (PyError.invalidSetting k (invalidLabel optionKey s)), s)

/-- `option = kwargs.get(self._option_key, self._command)` (when
`_option_key` is `None`, `kwargs.get(None, ...)` falls back to the command
name, the kwargs keys all being strings). -/
def lookupOption (op : OperationDescriptor) (kwargs : Settings) : Value :=
  match op.optionKey with
  | Option.none => Value.str op.command
  | Option.some ok =>
    match dictFind kwargs ok with
    | Option.some v => v
    | Option.none => Value.str op.command

/-- `CarisBatchCommand._set_config`: look the option up in the registry
(`.upper()` on a non-string raises `AttributeError`), replace the settings
by `{**common, **defaults}` and run the update loop.  `preState` is the
value `self.settings` holds if the registry lookup raises, in which case
the mapping is not replaced. -/
def setConfig (op : OperationDescriptor) (preState : Option Settings)
    (option : Value) (kwargs : Settings) : Option PyError × Option Settings :=
  match option with
  | Value.str s =>
    match registryFind op s with
    | Option.some defaults =>
      let r := updateLoop op.optionKey (dictMerge op.commonSettings defaults) kwargs
      (r.1, Option.some r.2)
    | Option.none => (Option.some (PyError.unsupportedOption (Value.str s)), preState)
  | _ => (Option.some PyError.attributeError, preState)

/-- `CarisBatchCommand.config` as a state transition on `self.settings`
(`Option.none` models Python `None`): normalise the keys, reset the mapping
when the discriminator value changes, then either rebuild from the variant
defaults or update in place.  Returns the raised exception (if any)
together with the post-call state of `self.settings`. -/
def configStep (op : OperationDescriptor) (settings0 : Option Settings)
    (raw : List (String × Value)) : Option PyError × Option Settings :=
  let kwargs := normalizeKwargs raw
  let d1 : Settings := settings0.getD []
  let reset : Bool :=
    match op.optionKey with
    | Option.none => false
    | Option.some ok =>
      kwargs.any (fun p => p.1 == ok) && !(dictGetV d1 ok == dictGetV kwargs ok)
  if reset || d1.isEmpty then
    setConfig op (if reset then Option.none else Option.some d1)
      (lookupOption op kwargs) kwargs
  else
    let r := updateLoop op.optionKey d1 kwargs
    (r.1, Option.some r.2)

/-- The `ThinPoints` operation class (`base_editor_processes.py`). -/
def ThinPoints : OperationDescriptor where
  command := "ThinPoints"
  optionKey := Option.some "method"
  commonSettings :=
    [("method", Value.none), ("include_band", Value.none), ("comments", Value.none)]
  optionRegistry :=
    [("RANDOM", [("percentage", Value.none)]),
     ("MINIMUM_DISTANCE", [("minimum_distance", Value.none), ("scale", Value.none)]),
     ("APPLY_BIAS",
      [("input_band", Value.none), ("bias", Value.none),
       ("minimum_distance", Value.none), ("scale", Value.none),
       ("apply_designated", Value.none)])]

/-- The fixed tuple `CarisBatchCommand._repeatable_args`. -/
def repeatableArgs : List String :=
  ["area_features", "attribute", "blocking_feature", "channel", "compare",
   "component_attribute", "compute_band", "contour_features", "coordinate_format",
   "contributor_attribute", "data", "deep_attributes", "filter_acquisition",
   "filter_post_processing", "grazing_angle_table", "import_type", "include",
   "include_3D_symbol", "include_attribute", "include_band", "include_flag",
   "input_band", "level", "level_file", "matrix", "minimum_distance", "overwrite",
   "override_classification_mapping", "range", "range_table", "reference_area_features",
   "reference_features", "reject_quality", "reject_type", "sbet_files", "sbet_rms_files",
   "shoal_attributes", "smooth_sensor", "status", "surface_name", "svp", "template",
   "template_name"]

/-- The flag name of a settings key: underscores become hyphens. -/
def hyphenKey (k : String) : String :=
  "--" ++ replaceChar '_' '-' k

/-- `_ArgsProcessing.repeatables_args`: wrap a scalar into a one-element
sequence and emit one `--key "value"` string per value. -/
def repeatablesArgs (k : String) (v : Value) : List String :=
  (ensureIterable v).map (fun x => hyphenKey k ++ " \"" ++ x.pyStr ++ "\"")

/-- The type-keyed dispatcher, restricted to the registered handlers:
`bool` to `booleans` (a true value yields the bare flag; a false value is
unreachable here because the caller filters falsy values first, so the
`None` element `booleans` would emit is dropped), `list`/`tuple`/generator
to `iterables`, `int`/`str`/`float` to `common_types`.  `NoneType` has no
registered handler, which is equally unreachable under the truthiness
filter. -/
def dispatch (k : String) : Value → List String
  | Value.bool b => if b then [hyphenKey k] else []
  | Value.int n => [hyphenKey k ++ " \"" ++ toString n ++ "\""]
  | Value.str s => [hyphenKey k ++ " \"" ++ s ++ "\""]
  | Value.list l => hyphenKey k :: l.map (fun x => "\"" ++ x.pyStr ++ "\"")
  | Value.none => []

/-- One iteration of the settings loop in `get_cmd`: falsy values are
skipped, keys in `_repeatable_args` go to the repeatable handler, the rest
are dispatched on the value's runtime type. -/
def formatSetting (k : String) (v : Value) : List String :=
  if v.truthy then
    if repeatableArgs.contains k then repeatablesArgs k v else dispatch k v
  else []

/-- The whole settings loop of `get_cmd`, in dict order. -/
def formatArgs (s : Settings) : List String :=
  (s.map (fun p => formatSetting p.1 p.2)).flatten

/-- `_ArgsProcessing.files_to_load`: quote the string form of every truthy
entry. -/
def filesToLoadArgs (files : List Value) : List String :=
  (files.filter (fun f => f.truthy)).map (fun f => "\"" ++ f.pyStr ++ "\"")

/-- `_ArgsProcessing.proc_path`.  `asUriFn` and `pathStrFn` stand for the
standard-library conversions `Path(p).as_uri()` and `str(Path(p))`, which
live outside this repository; they are passed as parameters. -/
def procPath (asUriFn pathStrFn : String → String) (path : Option String)
    (asUri : Bool) (vessels days lines : Value) : List String :=
  match path with
  | Option.none => []
  | Option.some p =>
    if p = "" then []
    else
      let uri := if asUri then asUriFn p else pathStrFn p
      if asUri && strEndsWith uri ".hips" then
        let queryParams := String.intercalate ";"
          ((([("Vessel", vessels), ("Day", days), ("Line", lines)] :
              List (String × Value)).map (fun pv =>
            ((ensureIterable pv.2).filter (fun v => v.truthy)).map
              (fun v => pv.1 ++ "=" ++ v.pyStr))).flatten)
        if queryParams = "" then ["\"" ++ uri ++ "\""]
        else ["\"" ++ uri ++ "?" ++ queryParams ++ "\""]
      else ["\"" ++ uri ++ "\""]

/-- One `CarisBatchCommand` instance: the operation class it belongs to and
the attributes set by `__init__` plus the mutable `settings`. -/
structure CarisInstance where
  op : OperationDescriptor
  input : Option String := Option.none
  inputAsUri : Bool := false
  vessels : Value := Value.none
  days : Value := Value.none
  lines : Value := Value.none
  filesToLoad : List Value := []
  output : Option String := Option.none
  outputAsUri : Bool := false
  settings : Option Settings := Option.none

/-- `CarisBatchCommand.get_cmd`: check that input or output is set, that
settings exist when the operation has a discriminator, then join the fixed
prefix, the formatted options, the auxiliary files, the input and the
output with single spaces.  When the operation has no discriminator and
`config` was never called, iterating `None.items()` raises
`AttributeError`. -/
def getCmd (asUriFn pathStrFn : String → String) (inst : CarisInstance) :
    Except PyError String :=
  if inst.input.isNone && inst.output.isNone then
    Except.error PyError.notConfigured
  else if (match inst.settings with
           | Option.none => true
           | Option.some d => d.isEmpty) && inst.op.optionKey.isSome then
    Except.error PyError.settingsNotConfigured
  else
    match inst.settings with
    | Option.none => Except.error PyError.attributeError
    | Option.some s =>
      let argsList := ["carisbatch", "--run", inst.op.command] ++ formatArgs s
      let inputToks := procPath asUriFn pathStrFn inst.input inst.inputAsUri
        inst.vessels inst.days inst.lines
      let outputToks := procPath asUriFn pathStrFn inst.output inst.outputAsUri
        Value.none Value.none Value.none
      let files := filesToLoadArgs inst.filesToLoad
      Except.ok (String.intercalate " " (argsList ++ files ++ inputToks ++ outputToks))

/-- What the child process does, abstracting `subprocess.Popen` and
`communicate`: either it completes with a return code and output streams,
or the timeout expires. -/
inductive ProcOutcome where
  | completed (returncode : Int) (stdout stderr : String)
  | timedOut
deriving Repr, DecidableEq

/-- What a call of `run` does to its caller: return the 4-tuple, or let an
exception escape. -/
inductive RunResult where
  | result (code : Int) (stdout stderr command : String)
  | raised (e : PyError)
deriving Repr, DecidableEq

/-- `CarisBatchCommand.run`.  `command = self.get_cmd()` is executed before
the `try` block, so an exception raised while building the command line
propagates to the caller; the `except CarisBatchError` handler inside the
`try` can never fire because nothing in the `try` body raises
`CarisBatchError`.  A `TimeoutExpired` from `communicate` is caught, the
child is killed and the sentinel tuple `(1, "", "Command Timed out",
command)` is returned. -/
def run (asUriFn pathStrFn : String → String) (outcome : ProcOutcome)
    (inst : CarisInstance) : RunResult :=
  match getCmd asUriFn pathStrFn inst with
  | Except.error e => RunResult.raised e
  | Except.ok command =>
    match outcome with
    | ProcOutcome.completed rc out err => RunResult.result rc out err command
    | ProcOutcome.timedOut => RunResult.result 1 "" "Command Timed out" command

/-! ### Helper lemmas -/

theorem dictFind_some_any {d : Settings} {k : String} {v : Value}
    (h : dictFind d k = Option.some v) : d.any (fun p => p.1 == k) = true := by
  unfold dictFind at h
  cases hf : d.find? (fun p => p.1 == k) with
  | none => rw [hf] at h; simp at h
  | some p =>
    exact List.any_eq_true.mpr
      ⟨p, List.mem_of_find?_eq_some hf, (List.find?_eq_some.mp hf).1⟩

theorem dictGetV_of_find {d : Settings} {k : String} {v : Value}
    (h : dictFind d k = Option.some v) : dictGetV d k = v := by
  unfold dictGetV
  rw [h]
  rfl

/-- A successful `_set_config` does not look at the pre-raise state. -/
theorem setConfig_ok_preState (op : OperationDescriptor) (pre1 pre2 : Option Settings)
    (option : Value) (kwargs : Settings) (s2 : Option Settings)
    (h : setConfig op pre1 option kwargs = (Option.none, s2)) :
    setConfig op pre2 option kwargs = (Option.none, s2) := by
  unfold setConfig at h ⊢
  cases option <;> simp_all
  case str s =>
    cases hr : registryFind op s with
    | none => rw [hr] at h; simp at h
    | some defaults => rw [hr] at h; exact h

/-- When the discriminator value in the update differs from the current one,
`config` discards the settings and rebuilds through `_set_config`. -/
theorem configStep_reset (op : OperationDescriptor) (s : Settings)
    (raw : List (String × Value)) (ok : String) (v : Value)
    (hok : op.optionKey = Option.some ok)
    (hfind : dictFind (normalizeKwargs raw) ok = Option.some v)
    (hne : dictGetV s ok ≠ v) :
    configStep op (Option.some s) raw =
      setConfig op Option.none (lookupOption op (normalizeKwargs raw))
        (normalizeKwargs raw) := by
  have hany := dictFind_some_any hfind
  have hget := dictGetV_of_find hfind
  have hbeq : (dictGetV s ok == dictGetV (normalizeKwargs raw) ok) = false := by
    rw [hget]
    exact beq_eq_false_iff_ne.mpr hne
  unfold configStep
  simp only [hok, Option.getD_some, hany, hbeq, Bool.not_false, Bool.and_self,
    Bool.true_or, if_pos rfl, Bool.true_and]
  simp

/-- A fresh `config` call (settings still `None`) always goes through
`_set_config`. -/
theorem configStep_none (op : OperationDescriptor) (raw : List (String × Value)) :
    ∃ pre, configStep op Option.none raw =
      setConfig op pre (lookupOption op (normalizeKwargs raw)) (normalizeKwargs raw) := by
  unfold configStep
  simp only [Option.getD_none, List.isEmpty_nil, Bool.or_true, if_pos rfl]
  exact ⟨_, rfl⟩

/-! ### C1 -/

/-- C1: on a fresh `ThinPoints`, `config(method="RANDOM", percentage=10)`
yields exactly the RANDOM variant's settings with `percentage` set;
reconfiguring with `config(method="MINIMUM_DISTANCE", minimum_distance=5)`
discards `percentage` and yields exactly the MINIMUM_DISTANCE variant's
settings with `minimum_distance` set; and in general, for every operation
with a discriminator, a successful `config` call whose discriminator value
differs from the current settings' value produces exactly the settings a
fresh configuration with the same arguments would produce (the new
variant's defaults, keeping only keys re-supplied in that call). -/
theorem thinPoints_config_discriminator_rebuild :
    (configStep ThinPoints Option.none
      [("method", Value.str "RANDOM"), ("percentage", Value.int 10)] =
      (Option.none, Option.some
        [("method", Value.str "RANDOM"), ("include_band", Value.none),
         ("comments", Value.none), ("percentage", Value.int 10)])) ∧
    (configStep ThinPoints
      (Option.some [("method", Value.str "RANDOM"), ("include_band", Value.none),
        ("comments", Value.none), ("percentage", Value.int 10)])
      [("method", Value.str "MINIMUM_DISTANCE"), ("minimum_distance", Value.int 5)] =
      (Option.none, Option.some
        [("method", Value.str "MINIMUM_DISTANCE"), ("include_band", Value.none),
         ("comments", Value.none), ("minimum_distance", Value.int 5),
         ("scale", Value.none)])) ∧
    (∀ (op : OperationDescriptor) (s : Settings) (raw : List (String × Value))
      (ok : String) (v : Value) (s2 : Option Settings),
      op.optionKey = Option.some ok →
      dictFind (normalizeKwargs raw) ok = Option.some v →
      dictGetV s ok ≠ v →
      configStep op (Option.some s) raw = (Option.none, s2) →
      configStep op Option.none raw = (Option.none, s2)) := by
  refine ⟨by decide, by decide, ?_⟩
  intro op s raw ok v s2 hok hfind hne hrun
  rw [configStep_reset op s raw ok v hok hfind hne] at hrun
  obtain ⟨pre, hfresh⟩ := configStep_none op raw
  rw [hfresh]
  exact setConfig_ok_preState op Option.none pre _ _ s2 hrun

/-- Closed instance of the general part of C1: reconfiguring the RANDOM
settings with a changed discriminator gives what a fresh configuration
gives. -/
theorem thinPoints_config_discriminator_rebuild_witness :
    configStep ThinPoints Option.none
      [("method", Value.str "MINIMUM_DISTANCE"), ("minimum_distance", Value.int 5)] =
      (Option.none, Option.some
        [("method", Value.str "MINIMUM_DISTANCE"), ("include_band", Value.none),
         ("comments", Value.none), ("minimum_distance", Value.int 5),
         ("scale", Value.none)]) :=
  thinPoints_config_discriminator_rebuild.2.2 ThinPoints
    [("method", Value.str "RANDOM"), ("include_band", Value.none),
     ("comments", Value.none), ("percentage", Value.int 10)]
    [("method", Value.str "MINIMUM_DISTANCE"), ("minimum_distance", Value.int 5)]
    "method" (Value.str "MINIMUM_DISTANCE") _ (by decide) (by decide) (by decide)
    (by decide)

/-! ### C3, C4 -/

/-- C3: contrary to the claim, a configuration error raised while building
the command line propagates out of `run`: `command = self.get_cmd()` is
evaluated before the `try` block, so the `except CarisBatchError` handler
that would convert it to `(-1, '', message, command)` is unreachable.  At
the failing input — a `ThinPoints` instance with an input path but
unconfigured settings — `run` raises for every process outcome and never
returns a result tuple. -/
theorem run_propagates_config_error :
    (∀ (asUriFn pathStrFn : String → String) (outcome : ProcOutcome)
      (inst : CarisInstance) (e : PyError),
      getCmd asUriFn pathStrFn inst = Except.error e →
      run asUriFn pathStrFn outcome inst = RunResult.raised e) ∧
    (∀ outcome : ProcOutcome,
      run id id outcome { op := ThinPoints, input := Option.some "in.csv" } =
        RunResult.raised PyError.settingsNotConfigured) ∧
    (∀ (outcome : ProcOutcome) (code : Int) (out err cmd : String),
      run id id outcome { op := ThinPoints, input := Option.some "in.csv" } ≠
        RunResult.result code out err cmd) := by
  have hraise : ∀ outcome : ProcOutcome,
      run id id outcome { op := ThinPoints, input := Option.some "in.csv" } =
        RunResult.raised PyError.settingsNotConfigured := fun _ => rfl
  refine ⟨?_, hraise, ?_⟩
  · intro asUriFn pathStrFn outcome inst e h
    unfold run
    rw [h]
  · intro outcome code out err cmd
    rw [hraise outcome]
    simp

/-- Closed instance of C3's propagation behaviour. -/
theorem run_propagates_config_error_witness :
    run id id ProcOutcome.timedOut { op := ThinPoints, input := Option.some "in.csv" } =
      RunResult.raised PyError.settingsNotConfigured :=
  run_propagates_config_error.1 id id ProcOutcome.timedOut
    { op := ThinPoints, input := Option.some "in.csv" }
    PyError.settingsNotConfigured (by rfl)

/-- C4: when the child process exceeds the timeout, `run` catches the
`TimeoutExpired`, kills the child and returns the tuple
`(1, '', 'Command Timed out', command)` instead of raising. -/
theorem run_timeout_returns_sentinel (asUriFn pathStrFn : String → String)
    (inst : CarisInstance) (cmd : String)
    (h : getCmd asUriFn pathStrFn inst = Except.ok cmd) :
    run asUriFn pathStrFn ProcOutcome.timedOut inst =
      RunResult.result 1 "" "Command Timed out" cmd := by
  unfold run
  rw [h]

/-- Closed instance of C4 on a configured `ThinPoints`. -/
theorem run_timeout_returns_sentinel_witness :
    run id id ProcOutcome.timedOut
      { op := ThinPoints, input := Option.some "in.csv",
        settings := Option.some
          [("method", Value.str "RANDOM"), ("include_band", Value.none),
           ("comments", Value.none), ("percentage", Value.int 10)] } =
      RunResult.result 1 "" "Command Timed out"
        "carisbatch --run ThinPoints --method \"RANDOM\" --percentage \"10\" \"in.csv\"" :=
  run_timeout_returns_sentinel id id _ _ (by rfl)

/-! ### C5 -/

/-- C5: every successfully built command line is the space-joined
concatenation of the prefix tokens `carisbatch --run <CommandName>`, the
formatted options, the quoted auxiliary files, the formatted input path and
the formatted output path, in that order; non-repeatable string options
render as the hyphenated flag followed by the double-quoted value; shown
concretely on a fully configured `ThinPoints`. -/
theorem getCmd_token_structure :
    (∀ (asUriFn pathStrFn : String → String) (inst : CarisInstance)
      (s : Settings) (cmd : String),
      inst.settings = Option.some s →
      getCmd asUriFn pathStrFn inst = Except.ok cmd →
      cmd = String.intercalate " "
        ((["carisbatch", "--run", inst.op.command] ++ formatArgs s)
          ++ filesToLoadArgs inst.filesToLoad
          ++ procPath asUriFn pathStrFn inst.input inst.inputAsUri
              inst.vessels inst.days inst.lines
          ++ procPath asUriFn pathStrFn inst.output inst.outputAsUri
              Value.none Value.none Value.none)) ∧
    (∀ (k sv : String), repeatableArgs.contains k = false → sv ≠ "" →
      formatSetting k (Value.str sv) =
        ["--" ++ replaceChar '_' '-' k ++ " \"" ++ sv ++ "\""]) ∧
    (getCmd id id
      { op := ThinPoints, input := Option.some "in.csv",
        output := Option.some "out.csv", filesToLoad := [Value.str "aux.txt"],
        settings := Option.some
          [("method", Value.str "RANDOM"), ("include_band", Value.none),
           ("comments", Value.none), ("percentage", Value.int 10)] } =
      Except.ok "carisbatch --run ThinPoints --method \"RANDOM\" --percentage \"10\" \"aux.txt\" \"in.csv\" \"out.csv\"") := by
  refine ⟨?_, ?_, by rfl⟩
  · intro asUriFn pathStrFn inst s cmd hs h
    unfold getCmd at h
    rw [hs] at h
    split at h
    · exact absurd h (by simp)
    · split at h
      · exact absurd h (by simp)
      · injection h with h
        exact h.symm
  · intro k sv hk hsv
    have ht : (Value.str sv).truthy = true := by
      simp [Value.truthy, hsv]
    unfold formatSetting
    rw [ht, if_pos rfl, hk]
    simp [dispatch, hyphenKey]

/-- Closed instance of the decomposition part of C5. -/
theorem getCmd_token_structure_witness :
    "carisbatch --run ThinPoints --method \"RANDOM\" --percentage \"10\" \"aux.txt\" \"in.csv\" \"out.csv\"" =
      String.intercalate " "
        ((["carisbatch", "--run", ThinPoints.command] ++ formatArgs
            [("method", Value.str "RANDOM"), ("include_band", Value.none),
             ("comments", Value.none), ("percentage", Value.int 10)])
          ++ filesToLoadArgs [Value.str "aux.txt"]
          ++ procPath id id (Option.some "in.csv") false
              Value.none Value.none Value.none
          ++ procPath id id (Option.some "out.csv") false
              Value.none Value.none Value.none) :=
  getCmd_token_structure.1 id id
    { op := ThinPoints, input := Option.some "in.csv",
      output := Option.some "out.csv", filesToLoad := [Value.str "aux.txt"],
      settings := Option.some
        [("method", Value.str "RANDOM"), ("include_band", Value.none),
         ("comments", Value.none), ("percentage", Value.int 10)] }
    [("method", Value.str "RANDOM"), ("include_band", Value.none),
     ("comments", Value.none), ("percentage", Value.int 10)]
    _ (by rfl) (by rfl)

/-! ### C6 -/

/-- C6 counterexample: `overwrite` is a settings key of real operations
(e.g. `ExportHIPS`) and is listed in `_repeatable_args`, so boolean `True`
for it renders as the flag with a quoted value token, not as a bare flag. -/
theorem formatSetting_overwrite_true_counterexample :
    formatSetting "overwrite" (Value.bool true) = ["--overwrite \"True\""] ∧
    formatSetting "overwrite" (Value.bool true) ≠ ["--overwrite"] := by
  exact ⟨by rfl, by decide⟩

/-- C6 (amended): a settings key whose value is null, empty, zero or false
contributes no tokens; a key with boolean `True` contributes exactly the
bare flag when the key is not repeatable-capable, and the single combined
token `--key "True"` when it is. -/
theorem formatSetting_falsy_and_bool :
    (∀ (k : String) (v : Value), v.truthy = false → formatSetting k v = []) ∧
    (∀ k : String, repeatableArgs.contains k = false →
      formatSetting k (Value.bool true) = [hyphenKey k]) ∧
    (∀ k : String, repeatableArgs.contains k = true →
      formatSetting k (Value.bool true) = [hyphenKey k ++ " \"True\""]) := by
  refine ⟨?_, ?_, ?_⟩
  · intro k v hv
    unfold formatSetting
    rw [hv]
    simp
  · intro k hk
    unfold formatSetting
    rw [hk]
    simp [Value.truthy, dispatch]
  · intro k hk
    unfold formatSetting
    rw [hk]
    simp only [Value.truthy, if_pos rfl, if_true]
    unfold repeatablesArgs ensureIterable
    simp [Value.pyStr]
    rw [String.append_assoc, String.append_assoc]
    rfl

/-- Closed instance of C6 (amended) at concrete keys. -/
theorem formatSetting_falsy_and_bool_witness :
    formatSetting "comments" Value.none = [] ∧
    formatSetting "apply_designated" (Value.bool true) = [hyphenKey "apply_designated"] ∧
    formatSetting "overwrite" (Value.bool true) = [hyphenKey "overwrite" ++ " \"True\""] :=
  ⟨formatSetting_falsy_and_bool.1 "comments" Value.none (by decide),
   formatSetting_falsy_and_bool.2.1 "apply_designated" (by decide),
   formatSetting_falsy_and_bool.2.2 "overwrite" (by decide)⟩

/-! ### C7 -/

/-- C7 counterexample: a repeatable-capable key with two values renders
with the flag repeated before each quoted value, not as one flag token
followed by the quoted values (which is the shape the `iterables` handler
produces and the claim describes). -/
theorem repeatable_flag_per_value_counterexample :
    String.intercalate " " (formatSetting "include_band"
      (Value.list [Scalar.str "A", Scalar.str "B"])) =
      "--include-band \"A\" --include-band \"B\"" ∧
    String.intercalate " " ("--include-band" ::
      ([Value.str "A", Value.str "B"].map (fun x => "\"" ++ x.pyStr ++ "\""))) =
      "--include-band \"A\" \"B\"" ∧
    ("--include-band \"A\" --include-band \"B\"" : String) ≠
      "--include-band \"A\" \"B\"" := by
  refine ⟨by rfl, by rfl, by decide⟩

/-- C7 (amended): a repeatable-capable key renders as one `--key "value"`
flag-and-quoted-value pair per value, the flag repeated before each value;
a scalar (non-sequence) value is first wrapped into a one-element sequence,
yielding a single such pair. -/
theorem repeatable_pair_per_value :
    (∀ (k : String) (v : Value), repeatableArgs.contains k = true →
      v.truthy = true →
      formatSetting k v = (ensureIterable v).map
        (fun x => hyphenKey k ++ " \"" ++ x.pyStr ++ "\"")) ∧
    (∀ v : Value, (∀ l, v ≠ Value.list l) → ensureIterable v = [v]) := by
  constructor
  · intro k v hk hv
    unfold formatSetting
    rw [hv, if_pos rfl, hk]
    simp [repeatablesArgs]
  · intro v hv
    cases v with
    | list l => exact absurd rfl (hv l)
    | none => rfl
    | bool b => rfl
    | int n => rfl
    | str s => rfl

/-- Closed instance of C7 (amended): a scalar supplied to a
repeatable-capable key yields a single flag-value pair. -/
theorem repeatable_pair_per_value_witness :
    formatSetting "minimum_distance" (Value.int 5) =
      (ensureIterable (Value.int 5)).map
        (fun x => hyphenKey "minimum_distance" ++ " \"" ++ x.pyStr ++ "\"") ∧
    ensureIterable (Value.int 5) = [Value.int 5] :=
  ⟨repeatable_pair_per_value.1 "minimum_distance" (Value.int 5) (by decide) (by decide),
   repeatable_pair_per_value.2 (Value.int 5) (by intro l h; cases h)⟩

/-! ### C8 -/

/-- C8: a truthy input path rendered as a URI ending in `.hips`, with
vessel selectors `["A", "B"]`, day selector `"2024-01-01"` and no line
selector, renders as the quoted URI followed by the query suffix
`?Vessel=A;Vessel=B;Day=2024-01-01` — one `Param=value` term per selector
value, `;`-separated, in Vessel, Day, Line order with the empty Line
category omitted. -/
theorem procPath_hips_query (asUriFn pathStrFn : String → String) (p : String)
    (hp : ¬ p = "") (hsuf : strEndsWith (asUriFn p) ".hips" = true) :
    procPath asUriFn pathStrFn (Option.some p) true
      (Value.list [Scalar.str "A", Scalar.str "B"]) (Value.str "2024-01-01")
      Value.none =
      ["\"" ++ asUriFn p ++ "?" ++ "Vessel=A;Vessel=B;Day=2024-01-01" ++ "\""] := by
  simp [procPath, hp, hsuf, ensureIterable, Value.truthy, Value.pyStr, Scalar.toValue]
  rw [if_neg (by decide)]
  rfl

/-- Closed instance of C8 with a concrete URI renderer. -/
theorem procPath_hips_query_witness :
    procPath (fun q => "file:///" ++ q) id (Option.some "proj.hips") true
      (Value.list [Scalar.str "A", Scalar.str "B"]) (Value.str "2024-01-01")
      Value.none =
      ["\"" ++ ("file:///" ++ "proj.hips") ++ "?" ++
        "Vessel=A;Vessel=B;Day=2024-01-01" ++ "\""] :=
  procPath_hips_query (fun q => "file:///" ++ q) id "proj.hips"
    (by decide) (by decide)

/-! ### C9 -/

/-- C9 counterexample: a key beginning with two separator characters has
both stripped, not exactly one: `lstrip` removes the whole leading run. -/
theorem normalizeKey_counterexample :
    normalizeKey "__percentage" = "percentage" ∧
    normalizeKey "__percentage" ≠ "_percentage" ∧
    normalizeKey "--percentage" = "percentage" := by
  refine ⟨by rfl, by decide, by rfl⟩

theorem lstripUnderscore_spec (l : List Char) :
    (∃ n, l = List.replicate n '_' ++ lstripUnderscore l) ∧
    (∀ c rest, lstripUnderscore l = c :: rest → c ≠ '_') := by
  induction l with
  | nil =>
    exact ⟨⟨0, rfl⟩, by intro c rest h; cases h⟩
  | cons c l ih =>
    by_cases hc : c = '_'
    · subst hc
      have hstep : lstripUnderscore ('_' :: l) = lstripUnderscore l := by
        simp [lstripUnderscore]
      refine ⟨?_, ?_⟩
      · obtain ⟨n, hn⟩ := ih.1
        refine ⟨n + 1, ?_⟩
        rw [hstep, List.replicate_succ, List.cons_append]
        exact congrArg (List.cons _) hn
      · intro d rest h
        rw [hstep] at h
        exact ih.2 d rest h
    · have hstep : lstripUnderscore (c :: l) = c :: l := by
        simp [lstripUnderscore, hc]
      refine ⟨⟨0, by rw [hstep]; rfl⟩, ?_⟩
      intro d rest h
      rw [hstep] at h
      cases h
      exact hc

/-- C9 (amended): key normalisation replaces hyphens by underscores and
then strips the whole run of leading separator characters (all of them,
not exactly one): the normalised key is the hyphen-normalised key minus a
leading block of underscores, and never starts with an underscore. -/
theorem normalizeKey_strips_leading_run (k : String) :
    (∃ n, (replaceChar '-' '_' k).toList =
      List.replicate n '_' ++ (normalizeKey k).toList) ∧
    (∀ c rest, (normalizeKey k).toList = c :: rest → c ≠ '_') := by
  have ht : (normalizeKey k).toList =
      lstripUnderscore ((replaceChar '-' '_' k).toList) := rfl
  rw [ht]
  exact lstripUnderscore_spec ((replaceChar '-' '_' k).toList)

/-- Closed instance of C9 (amended) at a doubly-prefixed key. -/
theorem normalizeKey_strips_leading_run_witness :
    (∃ n, (replaceChar '-' '_' "--percentage").toList =
      List.replicate n '_' ++ (normalizeKey "--percentage").toList) ∧
    ('p' : Char) ≠ '_' :=
  ⟨(normalizeKey_strips_leading_run "--percentage").1,
   (normalizeKey_strips_leading_run "--percentage").2 'p' "ercentage".toList (by rfl)⟩

/-! ### Key-set lemmas for C2 and C10 -/

theorem any_key_iff (d : Settings) (k : String) :
    d.any (fun p => p.1 == k) = true ↔ k ∈ dictKeys d := by
  simp only [List.any_eq_true, dictKeys, List.mem_map, beq_iff_eq]

theorem dictKeys_dictInsert_of_mem (d : Settings) (k : String) (v : Value)
    (h : d.any (fun p => p.1 == k) = true) :
    dictKeys (dictInsert d k v) = dictKeys d := by
  unfold dictInsert
  rw [if_pos h]
  unfold dictKeys
  rw [List.map_map]
  apply List.map_congr_left
  intro p hp
  by_cases hpk : (p.1 == k) = true
  · simp only [Function.comp_apply, if_pos hpk]
    exact (beq_iff_eq.mp hpk).symm
  · simp only [Function.comp_apply, if_neg hpk]

/-- `_update_settings` never changes the key set, neither on success nor on
a partial (raising) run. -/
theorem updateLoop_keys (okk : Option String) (s : Settings)
    (l : List (String × Value)) : dictKeys (updateLoop okk s l).2 = dictKeys s := by
  induction l generalizing s with
  | nil => rfl
  | cons p rest ih =>
    obtain ⟨k, v⟩ := p
    simp only [updateLoop]
    by_cases h : s.any (fun q => q.1 == k) = true
    · rw [if_pos h]
      rw [ih (dictInsert s k v)]
      exact dictKeys_dictInsert_of_mem s k v h
    · rw [if_neg h]

/-- A raising `_update_settings` raises the invalid-setting error and the
key it names is outside the settings' key set and among the supplied keys. -/
theorem updateLoop_error_names_missing_key (okk : Option String) (s : Settings)
    (l : List (String × Value)) (e : PyError) (s2 : Settings)
    (h : updateLoop okk s l = (Option.some e, s2)) :
    ∃ k lab, e = PyError.invalidSetting k lab ∧ ¬ k ∈ dictKeys s ∧
      k ∈ l.map (fun p => p.1) := by
  induction l generalizing s with
  | nil => simp [updateLoop] at h
  | cons p rest ih =>
    obtain ⟨k, v⟩ := p
    simp only [updateLoop] at h
    by_cases hk : s.any (fun q => q.1 == k) = true
    · rw [if_pos hk] at h
      obtain ⟨k2, lab, he, hmem, hin⟩ := ih (dictInsert s k v) h
      rw [dictKeys_dictInsert_of_mem s k v hk] at hmem
      exact ⟨k2, lab, he, hmem, by simp [hin]⟩
    · rw [if_neg hk] at h
      rw [Prod.mk.injEq] at h
      obtain ⟨h1, _⟩ := h
      refine ⟨k, _, (Option.some.injEq _ _).mp h1 |>.symm, ?_, by simp⟩
      intro hmem
      exact hk ((any_key_iff s k).mpr hmem)

/-- Supplying any key outside the settings' key set makes
`_update_settings` raise the invalid-setting error, naming a key outside
the set. -/
theorem updateLoop_error_of_missing (okk : Option String) (s : Settings)
    (l : List (String × Value)) (h : ∃ p ∈ l, ¬ p.1 ∈ dictKeys s) :
    ∃ k lab s2, updateLoop okk s l =
      (Option.some (PyError.invalidSetting k lab), s2) ∧ ¬ k ∈ dictKeys s := by
  induction l generalizing s with
  | nil =>
    obtain ⟨p, hp, _⟩ := h
    cases hp
  | cons q rest ih =>
    obtain ⟨k, v⟩ := q
    by_cases hk : s.any (fun p => p.1 == k) = true
    · obtain ⟨p, hp, hmiss⟩ := h
      rcases List.mem_cons.mp hp with heq | hrest
      · exfalso
        apply hmiss
        rw [heq]
        exact (any_key_iff s k).mp hk
      · have hrec : ∃ p2 ∈ rest, ¬ p2.1 ∈ dictKeys (dictInsert s k v) := by
          refine ⟨p, hrest, ?_⟩
          rw [dictKeys_dictInsert_of_mem s k v hk]
          exact hmiss
        obtain ⟨k2, lab, s2, hrun, hmem⟩ := ih (dictInsert s k v) hrec
        rw [dictKeys_dictInsert_of_mem s k v hk] at hmem
        refine ⟨k2, lab, s2, ?_, hmem⟩
        simp only [updateLoop]
        rw [if_pos hk]
        exact hrun
    · refine ⟨k, invalidLabel okk s, s, ?_, ?_⟩
      · simp only [updateLoop]
        rw [if_neg hk]
      · intro hmem
        exact hk ((any_key_iff s k).mpr hmem)

/-- The states `self.settings` can reach through successful `config` calls,
starting from a fresh instance (`settings = None`). -/
inductive ReachableSettings (op : OperationDescriptor) : Option Settings → Prop where
  | start : ReachableSettings op Option.none
  | config (s0 : Option Settings) (raw : List (String × Value)) (s1 : Settings)
      (hprev : ReachableSettings op s0)
      (hstep : configStep op s0 raw = (Option.none, Option.some s1)) :
      ReachableSettings op (Option.some s1)

/-- A successful `_set_config` produces a mapping whose key set is the one
of `{**common, **defaults}` for a registry variant. -/
theorem setConfig_ok_keys (op : OperationDescriptor) (pre : Option Settings)
    (option : Value) (kwargs : Settings) (s1 : Settings)
    (h : setConfig op pre option kwargs = (Option.none, Option.some s1)) :
    ∃ q ∈ op.optionRegistry,
      dictKeys s1 = dictKeys (dictMerge op.commonSettings q.2) := by
  unfold setConfig at h
  cases option with
  | str sv =>
    cases hf : op.optionRegistry.find? (fun p => p.1 == asciiUpper sv) with
    | none =>
      have hr : registryFind op sv = Option.none := by
        unfold registryFind
        rw [hf]
        rfl
      simp [hr] at h
    | some q =>
      have hr : registryFind op sv = Option.some q.2 := by
        unfold registryFind
        rw [hf]
        rfl
      simp only [hr] at h
      have h2 : (updateLoop op.optionKey (dictMerge op.commonSettings q.2) kwargs).2 = s1 := by
        have hpair : ((updateLoop op.optionKey (dictMerge op.commonSettings q.2) kwargs).1,
            Option.some (updateLoop op.optionKey (dictMerge op.commonSettings q.2) kwargs).2) =
            ((Option.none : Option PyError), Option.some s1) := h
        exact (Option.some.injEq _ _).mp (congrArg Prod.snd hpair)
      refine ⟨q, List.mem_of_find?_eq_some hf, ?_⟩
      rw [← h2, updateLoop_keys]
  | none => simp at h
  | bool b => simp at h
  | int n => simp at h
  | list l => simp at h

theorem reachable_keys_aux (op : OperationDescriptor) (os : Option Settings)
    (h : ReachableSettings op os) :
    ∀ s, os = Option.some s →
      ∃ q ∈ op.optionRegistry,
        dictKeys s = dictKeys (dictMerge op.commonSettings q.2) := by
  induction h with
  | start =>
    intro s hs
    cases hs
  | config s0 raw s1 hprev hstep ih =>
    intro s2 hs
    obtain rfl : s1 = s2 := (Option.some.injEq _ _).mp hs
    simp only [configStep] at hstep
    split at hstep
    · exact setConfig_ok_keys op _ _ _ _ hstep
    · rename_i hcond
      cases s0 with
      | none =>
        exfalso
        apply hcond
        simp
      | some d =>
        obtain ⟨q, hq, hkeys⟩ := ih d rfl
        refine ⟨q, hq, ?_⟩
        have h2 := congrArg Prod.snd hstep
        simp only [Option.getD_some] at h2
        rw [← (Option.some.injEq _ _).mp h2, updateLoop_keys]
        exact hkeys

/-! ### C2 -/

/-- C2: after every sequence of successful `config` calls the settings'
key set is exactly the key set of `{**common_settings,
**variant_defaults}` for a registry variant; a raising `_update_settings`
raises the invalid-setting error naming a supplied key that lies outside
the key set; any update containing a key outside the key set raises; and
no update — completed or partial — ever adds a key to the settings. -/
theorem settings_keyset_invariant :
    (∀ (op : OperationDescriptor) (s : Settings),
      ReachableSettings op (Option.some s) →
      ∃ q ∈ op.optionRegistry,
        dictKeys s = dictKeys (dictMerge op.commonSettings q.2)) ∧
    (∀ (okk : Option String) (s : Settings) (l : List (String × Value))
      (e : PyError) (s2 : Settings),
      updateLoop okk s l = (Option.some e, s2) →
      ∃ k lab, e = PyError.invalidSetting k lab ∧ ¬ k ∈ dictKeys s ∧
        k ∈ l.map (fun p => p.1)) ∧
    (∀ (okk : Option String) (s : Settings) (l : List (String × Value)),
      (∃ p ∈ l, ¬ p.1 ∈ dictKeys s) →
      ∃ k lab s2, updateLoop okk s l =
        (Option.some (PyError.invalidSetting k lab), s2) ∧ ¬ k ∈ dictKeys s) ∧
    (∀ (okk : Option String) (s : Settings) (l : List (String × Value)),
      dictKeys (updateLoop okk s l).2 = dictKeys s) :=
  ⟨fun op s h => reachable_keys_aux op (Option.some s) h s rfl,
   updateLoop_error_names_missing_key,
   updateLoop_error_of_missing,
   updateLoop_keys⟩

/-- Closed instance of C2: the key set reached by configuring `ThinPoints`
with the RANDOM method is the union of the common keys and the RANDOM
variant's keys. -/
theorem settings_keyset_invariant_witness :
    ∃ q ∈ ThinPoints.optionRegistry,
      dictKeys [("method", Value.str "RANDOM"), ("include_band", Value.none),
        ("comments", Value.none), ("percentage", Value.int 10)] =
        dictKeys (dictMerge ThinPoints.commonSettings q.2) :=
  settings_keyset_invariant.1 ThinPoints _
    (ReachableSettings.config Option.none
      [("method", Value.str "RANDOM"), ("percentage", Value.int 10)] _
      ReachableSettings.start (by decide))

/-! ### C10 -/

/-- `self.settings` after the pairs before the offending key have been
applied: a left fold of in-place dict assignment. -/
def writeAll (s : Settings) (l : List (String × Value)) : Settings :=
  l.foldl (fun d p => dictInsert d p.1 p.2) s

/-- A raising `_update_settings` keeps every assignment made before the
offending key. -/
theorem updateLoop_keeps_prior_writes (okk : Option String) (s : Settings)
    (pre : List (String × Value)) (k : String) (v : Value)
    (rest : List (String × Value))
    (hpre : ∀ p ∈ pre, p.1 ∈ dictKeys s) (hk : ¬ k ∈ dictKeys s) :
    updateLoop okk s (pre ++ (k, v) :: rest) =
      (Option.some (PyError.invalidSetting k (invalidLabel okk (writeAll s pre))),
       writeAll s pre) := by
  induction pre generalizing s with
  | nil =>
    have hany : ¬ s.any (fun p => p.1 == k) = true := fun hc =>
      hk ((any_key_iff s k).mp hc)
    simp only [List.nil_append, updateLoop, writeAll, List.foldl_nil]
    rw [if_neg hany]
  | cons q pre ih =>
    obtain ⟨k2, v2⟩ := q
    have hq : k2 ∈ dictKeys s := hpre (k2, v2) (List.mem_cons_self _ _)
    have hqany : s.any (fun p => p.1 == k2) = true := (any_key_iff s k2).mpr hq
    have hpre2 : ∀ p ∈ pre, p.1 ∈ dictKeys (dictInsert s k2 v2) := by
      intro p hp
      rw [dictKeys_dictInsert_of_mem s k2 v2 hqany]
      exact hpre p (List.mem_cons_of_mem _ hp)
    have hk2 : ¬ k ∈ dictKeys (dictInsert s k2 v2) := by
      rw [dictKeys_dictInsert_of_mem s k2 v2 hqany]
      exact hk
    have hrec := ih (dictInsert s k2 v2) hpre2 hk2
    simp only [List.cons_append, updateLoop, List.append_eq]
    rw [if_pos hqany, hrec]
    rfl

/-- When the discriminator changes to a valid variant, the mapping is
replaced by `{**common, **defaults}` before the update loop runs, so a
later invalid key leaves the rebuilt mapping (with its partial updates)
behind. -/
theorem configStep_reset_runs_on_new_defaults (op : OperationDescriptor)
    (s : Settings) (raw : List (String × Value)) (ok sv : String)
    (defaults : Settings)
    (hok : op.optionKey = Option.some ok)
    (hfind : dictFind (normalizeKwargs raw) ok = Option.some (Value.str sv))
    (hne : dictGetV s ok ≠ Value.str sv)
    (hreg : registryFind op sv = Option.some defaults) :
    configStep op (Option.some s) raw =
      ((updateLoop op.optionKey (dictMerge op.commonSettings defaults)
          (normalizeKwargs raw)).1,
       Option.some (updateLoop op.optionKey (dictMerge op.commonSettings defaults)
          (normalizeKwargs raw)).2) := by
  rw [configStep_reset op s raw ok (Value.str sv) hok hfind hne]
  have hlook : lookupOption op (normalizeKwargs raw) = Value.str sv := by
    simp [lookupOption, hok, hfind]
  rw [hlook]
  simp [setConfig, hreg]

/-- C10: `config` is not atomic on failure.  First part: when the update
contains valid keys followed by an invalid one, the invalid-setting error
is raised only after all earlier pairs have been written, and the partial
state is what remains.  Second part: when the same call also changed the
discriminator to a valid variant, the settings have already been replaced
by the new variant's defaults when the loop runs, so the pre-call settings
are not restored on error. -/
theorem config_not_atomic_on_failure :
    (∀ (okk : Option String) (s : Settings) (pre : List (String × Value))
      (k : String) (v : Value) (rest : List (String × Value)),
      (∀ p ∈ pre, p.1 ∈ dictKeys s) → ¬ k ∈ dictKeys s →
      updateLoop okk s (pre ++ (k, v) :: rest) =
        (Option.some (PyError.invalidSetting k (invalidLabel okk (writeAll s pre))),
         writeAll s pre)) ∧
    (∀ (op : OperationDescriptor) (s : Settings) (raw : List (String × Value))
      (ok sv : String) (defaults : Settings),
      op.optionKey = Option.some ok →
      dictFind (normalizeKwargs raw) ok = Option.some (Value.str sv) →
      dictGetV s ok ≠ Value.str sv →
      registryFind op sv = Option.some defaults →
      configStep op (Option.some s) raw =
        ((updateLoop op.optionKey (dictMerge op.commonSettings defaults)
            (normalizeKwargs raw)).1,
         Option.some (updateLoop op.optionKey (dictMerge op.commonSettings defaults)
            (normalizeKwargs raw)).2)) :=
  ⟨updateLoop_keeps_prior_writes, configStep_reset_runs_on_new_defaults⟩

/-- Closed instance of C10: reconfiguring a RANDOM-configured `ThinPoints`
with `method="MINIMUM_DISTANCE", scale=2, bogus=1` raises on `bogus`, yet
leaves behind the MINIMUM_DISTANCE defaults with `method` and `scale`
already written. -/
theorem config_not_atomic_on_failure_witness :
    configStep ThinPoints
      (Option.some [("method", Value.str "RANDOM"), ("include_band", Value.none),
        ("comments", Value.none), ("percentage", Value.int 10)])
      [("method", Value.str "MINIMUM_DISTANCE"), ("scale", Value.int 2),
       ("bogus", Value.int 1)] =
      ((updateLoop ThinPoints.optionKey
          (dictMerge ThinPoints.commonSettings
            [("minimum_distance", Value.none), ("scale", Value.none)])
          (normalizeKwargs [("method", Value.str "MINIMUM_DISTANCE"),
            ("scale", Value.int 2), ("bogus", Value.int 1)])).1,
       Option.some (updateLoop ThinPoints.optionKey
          (dictMerge ThinPoints.commonSettings
            [("minimum_distance", Value.none), ("scale", Value.none)])
          (normalizeKwargs [("method", Value.str "MINIMUM_DISTANCE"),
            ("scale", Value.int 2), ("bogus", Value.int 1)])).2) :=
  config_not_atomic_on_failure.2 ThinPoints
    [("method", Value.str "RANDOM"), ("include_band", Value.none),
     ("comments", Value.none), ("percentage", Value.int 10)]
    [("method", Value.str "MINIMUM_DISTANCE"), ("scale", Value.int 2),
     ("bogus", Value.int 1)]
    "method" "MINIMUM_DISTANCE"
    [("minimum_distance", Value.none), ("scale", Value.none)]
    (by rfl) (by decide) (by decide) (by rfl)

end Caris
